import Mathlib

/-
Shallow embedding of the withInstruction repository (React Native / Expo
boilerplate).  The embedding covers:

* the localized API error strings (app/constants/Strings.ts),
* the API error handling and async-thunk wrapper (app/configs/APIConfig.ts),
* the Sentry capture helpers (SentryConfig, src/unnamed/part_003),
* the redux-persist configuration (app/redux/Store.ts),
* the environment configuration (buildconfig getEnvironmentConfig and the
  expo defineConfig, withCustomSigning.js and src/unnamed/part_005),
* the platform build scripts (env copy script src/unnamed/part_006 and the
  iOS build script embedded in withCustomSigning.js).

Functions are translated from the TypeScript / shell source; the few pieces
of the repository that are imported but not present under src (the i18n
translation table, CommonUtils, APIConfigTypes, the auth reducer and the
redux-persist library internals) are modelled from the specification and
marked as such in their doc comments.
-/

namespace WithInstruction

namespace I18n

/-- Modelled from the spec: the translation tables behind I18n.t are not
under src; the spec only says problem codes are mapped to localized message
strings.  The lookup is modelled as returning its key, which keeps distinct
localized strings distinct. -/
def t (key : String) : String := key

end I18n

namespace Strings

namespace APIError

/-- Strings.ts line 25. -/
def somethingWentWrong : String := I18n.t "apiError:somethingWentWrong"

/-- Strings.ts line 26. -/
def networkError : String := I18n.t "apiError:networkError"

/-- Strings.ts line 27. -/
def serverError : String := I18n.t "apiError:serverError"

/-- Strings.ts line 28. -/
def timeoutError : String := I18n.t "apiError:timeoutError"

/-- Strings.ts line 29. -/
def clientError : String := I18n.t "apiError:clientError"

/-- Strings.ts line 30. -/
def cancelError : String := I18n.t "apiError:cancelError"

/-- Strings.ts line 31. -/
def connectionError : String := I18n.t "apiError:connectionError"

/-- Strings.ts line 32. -/
def unexpectedError : String := I18n.t "apiError:unexpectedError"

/-- Strings.ts line 34. -/
def error : String := I18n.t "apiError:error"

end APIError

end Strings

namespace APIErrorType

/-- Modelled from the spec: APIConfigTypes.ts is imported by APIConfig.ts but
is not under src.  USER_CANCELLED_REQUEST is the fixed cancellation reason
string the thunk wrapper passes to source.cancel and that
processResponseAndCaptureInfo compares against. -/
def USER_CANCELLED_REQUEST : String := "USER_CANCELLED_REQUEST"

end APIErrorType

/-- The error payload a thunk rejects with.  Modelled from the spec: the
ErrorResponse type and getErrorResponse from app/utils/CommonUtils.ts are not
under src; per the spec, errors are mapped to message strings, so the
response is the carried message. -/
structure ErrorResponse where
  message : String
deriving DecidableEq, Repr

/-- Modelled from the spec: getErrorResponse from app/utils/CommonUtils.ts
(not under src) packages a message string as the ErrorResponse the thunks
reject with. -/
def getErrorResponse (messages : String) : ErrorResponse :=
  { message := messages }

/-- The problem codes of the apisauce HTTP client, as imported at the top of
APIConfig.ts.  NONE is the problem value of an ok response and UNKNOWN_ERROR
the remaining apisauce code; both fall into the default branch of
handleError. -/
inductive Problem where
  | NONE
  | CLIENT_ERROR
  | SERVER_ERROR
  | TIMEOUT_ERROR
  | CONNECTION_ERROR
  | NETWORK_ERROR
  | CANCEL_ERROR
  | UNKNOWN_ERROR
deriving DecidableEq, Repr

/-- ResponseBound (APIConfig.ts lines 27 to 29): the response data type has
an optional message field.  The TypeScript structural constraint is embedded
as a projection class. -/
class ResponseBound (R : Type) where
  message : R → Option String

/-- An apisauce error response as consumed by handleError and
processResponseAndCaptureInfo: the problem code, the optional parsed body,
the message of originalError and the HTTP status. -/
structure ApiErrorResponse (R : Type) where
  problem : Problem
  data : Option R
  originalErrorMessage : Option String
  status : Option Nat
deriving DecidableEq, Repr

/-- The message carried in the response body, response.data?.message. -/
def dataMessage {R : Type} [ResponseBound R] (response : ApiErrorResponse R) :
    Option String :=
  response.data.bind ResponseBound.message

/-- handleClientError (APIConfig.ts lines 218 to 224): prefer the message in
the response body, fall back to the supplied default message. -/
def handleClientError {R : Type} [ResponseBound R]
    (response : ApiErrorResponse R) (defaultMessage : String) : ErrorResponse :=
  getErrorResponse ((dataMessage response).getD defaultMessage)

/-- handleError (APIConfig.ts lines 233 to 270): dispatch on the apisauce
problem code; the toast branch at lines 261 to 267 has an empty body and does
not affect the returned error. -/
def handleError {R : Type} [ResponseBound R]
    (response : ApiErrorResponse R) (shouldShowToast : Bool) : ErrorResponse :=
  let error : ErrorResponse :=
    match response.problem with
    | Problem.CLIENT_ERROR => handleClientError response Strings.APIError.clientError
    | Problem.SERVER_ERROR => handleClientError response Strings.APIError.serverError
    | Problem.TIMEOUT_ERROR => handleClientError response Strings.APIError.timeoutError
    | Problem.CONNECTION_ERROR => handleClientError response Strings.APIError.connectionError
    | Problem.NETWORK_ERROR => handleClientError response Strings.APIError.networkError
    | Problem.CANCEL_ERROR => handleClientError response Strings.APIError.cancelError
    | _ => handleClientError response Strings.APIError.somethingWentWrong
  error

/-- A JavaScript value reaching a catch block or an unknown-typed argument:
a string, an Error instance (possibly an axios error), or anything else. -/
inductive JSError where
  | str (s : String)
  | errorInstance (name : String) (message : String) (isAxiosError : Bool)
  | otherValue
deriving DecidableEq, Repr

/-- handleCatchError (APIConfig.ts lines 277 to 283): an axios error rejects
with its own message, anything else with the localized unexpected error. -/
def handleCatchError (error : JSError) : ErrorResponse :=
  match error with
  | JSError.errorInstance _ message true => getErrorResponse message
  | _ => getErrorResponse Strings.APIError.unexpectedError

/-- The UserResponse body shape (src/unnamed/part_002). -/
structure UserResponse where
  id : Option String
  email : Option String
  phone : Option String
  displayName : Option String
  photoURL : Option String
  message : Option String
deriving DecidableEq, Repr

instance : ResponseBound UserResponse :=
  { message := UserResponse.message }

/-- A JSON-like value, standing in for JavaScript values typed any. -/
inductive JsonValue where
  | nullValue
  | boolValue (b : Bool)
  | numValue (n : Int)
  | strValue (s : String)
  | arrValue (items : List JsonValue)
  | objValue (fields : List (String × JsonValue))

/-- The two apisauce instances created in APIConfig.ts lines 111 and 112. -/
inductive ApisauceInstance where
  | authorizedAPI
  | unauthorizedAPI
deriving DecidableEq, Repr

/-- The axios request settings fields that apiWithCancelToken reads or
writes: headers, query params and the cancellation token. -/
structure AxiosSettings where
  headers : List (String × String)
  params : Option (List (String × String))
  cancelToken : Option Nat
deriving DecidableEq, Repr

/-- An axios CancelTokenSource; the token is identified by the number the
allocator handed out. -/
structure CancelTokenSource where
  token : Nat
deriving DecidableEq, Repr

/-- ApiConfig (APIConfig.ts lines 44 to 52): the request description passed
to apiWithCancelToken.  paths with value none and with an empty record are
behaviourally identical under lodash isEmpty, so paths is a plain list. -/
structure ApiConfig where
  api : ApisauceInstance
  method : String
  url : String
  data : Option JsonValue
  params : Option (List (String × String))
  setting : Option AxiosSettings
  paths : List (String × String)

/-- Modelled from the spec: formatString from app/utils/CommonUtils.ts is not
under src; the APIConfig.ts doc comments describe paths as path query
parameters to be set with the url, modelled as replacing each \x7bkey\x7d
placeholder in the url with its value. -/
def formatString (url : String) (paths : List (String × String)) : String :=
  paths.foldl (fun acc kv => acc.replace ("\x7b" ++ kv.1 ++ "\x7d") kv.2) url

/-- The HTTP request as handed to the apisauce instance: method, final url,
body, positional params and the settings object. -/
structure DispatchedRequest where
  api : ApisauceInstance
  method : String
  url : String
  body : Option JsonValue
  positionalParams : Option (List (String × String))
  settings : AxiosSettings

/-- apiWithCancelToken (APIConfig.ts lines 180 to 209): merge the caller
settings, attach the cancellation token of the supplied source, interpolate
the path parameters, and dispatch through the data or params call shape. -/
def apiWithCancelToken (config : ApiConfig) (source : CancelTokenSource) :
    DispatchedRequest :=
  let httpMethod := config.method.toLower
  let hasData := ["post", "put", "patch"].contains httpMethod
  let base := config.setting.getD { headers := [], params := none, cancelToken := none }
  let merged : AxiosSettings :=
    { headers := base.headers
      params := if !hasData && config.params.isSome then config.params else base.params
      cancelToken := base.cancelToken }
  let settings : AxiosSettings := { merged with cancelToken := some source.token }
  let finalUrl := if config.paths.isEmpty then config.url else formatString config.url config.paths
  { api := config.api
    method := httpMethod
    url := finalUrl
    body := if hasData then config.data else none
    positionalParams := if hasData then none else some (config.params.getD [])
    settings := settings }

/-- ThunkArg (APIConfig.ts lines 62 to 68): the payload dispatched with a
thunk. -/
structure ThunkArg where
  data : Option JsonValue
  params : Option (List (String × String))
  setting : Option AxiosSettings
  paths : List (String × String)
  shouldShowToast : Option Bool

/-- The empty payload used when the thunk is dispatched without an argument
(payload ?? \x7b\x7d at APIConfig.ts line 316). -/
def defaultThunkArg : ThunkArg :=
  { data := none, params := none, setting := none, paths := [], shouldShowToast := none }

/-- A pending cancellation registered on the abort signal: which token gets
cancelled and with which reason. -/
structure CancelAction where
  token : Nat
  reason : String
deriving DecidableEq, Repr

/-- A Sentry event as recorded by the capture helpers of
src/unnamed/part_003. -/
structure SentryCapture where
  errorName : String
  errorMessage : String
  endpoint : Option String
  responseAttached : Bool
deriving DecidableEq, Repr

/-- sentryCaptureAPIException (src/unnamed/part_003 lines 46 to 76): outside
development mode, capture a synthetic Error whose message is derived from the
unknown error argument and whose name carries the endpoint when one is
given. -/
def sentryCaptureAPIException (isDevelopment : Bool) (endpoint : Option String)
    (response : Option JsonValue) (error : JSError) : List SentryCapture :=
  if isDevelopment then []
  else
    let errorMessage : String :=
      match error with
      | JSError.str s => s
      | JSError.errorInstance _ message _ => message
      | JSError.otherValue => Strings.APIError.unexpectedError
    let errorName : String :=
      match endpoint with
      | some e => if e = "" then Strings.APIError.error else Strings.APIError.error ++ ": " ++ e
      | none => Strings.APIError.error
    [{ errorName := errorName
       errorMessage := errorMessage
       endpoint := endpoint
       responseAttached := response.isSome }]

/-- A Sentry message event recorded by sentryCaptureMessage. -/
structure SentryMessageEvent where
  eventName : String
  requestExtra : String
  errorExtra : String
deriving DecidableEq, Repr

/-- sentryCaptureMessage (src/unnamed/part_003 lines 87 to 101): outside
development mode, capture the event name with the stringified request and
error as extras. -/
def sentryCaptureMessage (isDevelopment : Bool) (eventName : String)
    (request : Option String) (error : Option String) : List SentryMessageEvent :=
  if isDevelopment then []
  else [{ eventName := eventName
          requestExtra := request.getD "\x7b\x7d"
          errorExtra := error.getD "\x7b\x7d" }]

/-- sentryCaptureException (src/unnamed/part_003 lines 109 to 111): outside
development mode, forward the Error to Sentry. -/
def sentryCaptureException (isDevelopment : Bool) (errorName errorMessage : String) :
    List SentryCapture :=
  if isDevelopment then []
  else [{ errorName := errorName
          errorMessage := errorMessage
          endpoint := none
          responseAttached := false }]

/-- An invocation of sentryCaptureAPIException with its arguments, before the
development-mode guard inside the function body is consulted. -/
structure SentryAPIExceptionCall where
  endpoint : Option String
  responseAttached : Bool
  errorArg : JSError
deriving DecidableEq, Repr

/-- The unknown-typed third argument built from response.data?.message. -/
def errorArgOfMessage : Option String → JSError
  | some s => JSError.str s
  | none => JSError.otherValue

/-- processResponseAndCaptureInfo (APIConfig.ts lines 290 to 296): strip
config and headers from a clone of the response and forward it to
sentryCaptureAPIException unless the original error message is the
user-cancellation reason.  The result lists the sentryCaptureAPIException
invocations made. -/
def processResponseAndCaptureInfo {R : Type} [ResponseBound R]
    (response : ApiErrorResponse R) (url : String) : List SentryAPIExceptionCall :=
  if response.originalErrorMessage = some APIErrorType.USER_CANCELLED_REQUEST then []
  else [{ endpoint := some url
          responseAttached := true
          errorArg := errorArgOfMessage (dataMessage response) }]

/-- What the thunk created by createAsyncThunkWithCancelToken does before the
response arrives: allocate a cancellation source, register the abort handler,
and build the request through apiWithCancelToken. -/
structure ThunkRequestSetup where
  sourceToken : Nat
  abortActions : List CancelAction
  request : DispatchedRequest

/-- The setup phase of the payload creator of createAsyncThunkWithCancelToken
(APIConfig.ts lines 313 to 327): destructure the payload, create the cancel
source (its fresh token supplied by the allocator), register the abort
listener that cancels the source with USER_CANCELLED_REQUEST, and dispatch
the request through apiWithCancelToken with that source. -/
def createAsyncThunkWithCancelTokenSetup (api : ApisauceInstance)
    (method url : String) (payload : Option ThunkArg) (freshToken : Nat) :
    ThunkRequestSetup :=
  let arg := payload.getD defaultThunkArg
  let source : CancelTokenSource := { token := freshToken }
  { sourceToken := source.token
    abortActions := [{ token := source.token, reason := APIErrorType.USER_CANCELLED_REQUEST }]
    request := apiWithCancelToken
      { api := api, method := method, url := url, data := arg.data
        params := arg.params, setting := arg.setting, paths := arg.paths } source }

/-- Firing the abort signal of the thunk runs every registered abort
listener (APIConfig.ts lines 320 to 322). -/
def fireAbortSignal (setup : ThunkRequestSetup) : List CancelAction :=
  setup.abortActions

/-- How a dispatched request resolves: an ok response carrying data, an
apisauce error response, or a thrown exception. -/
inductive RequestOutcome (R : Type) where
  | okResponse (data : Option R)
  | errorResponse (response : ApiErrorResponse R)
  | thrown (error : JSError)

/-- The settled state of a thunk execution. -/
inductive ThunkResult (R : Type) where
  | fulfilled (data : Option R)
  | rejected (error : ErrorResponse)
deriving DecidableEq, Repr

/-- The observable record of one execution of a thunk created by
createAsyncThunkWithCancelToken. -/
structure ThunkExec (R : Type) where
  sourceToken : Nat
  abortActions : List CancelAction
  requests : List DispatchedRequest
  sentryCalls : List SentryAPIExceptionCall
  result : ThunkResult R

/-- One full execution of the payload creator built by
createAsyncThunkWithCancelToken (APIConfig.ts lines 307 to 340): the single
request is dispatched; an ok response fulfills with its data; an error
response is forwarded through processResponseAndCaptureInfo and rejected with
handleError; a thrown error is forwarded to sentryCaptureAPIException with a
null response and rejected with handleCatchError. -/
def createAsyncThunkWithCancelTokenRun {R : Type} [ResponseBound R]
    (api : ApisauceInstance) (method url : String) (payload : Option ThunkArg)
    (freshToken : Nat) (outcome : RequestOutcome R) : ThunkExec R :=
  let arg := payload.getD defaultThunkArg
  let shouldShowToast := arg.shouldShowToast.getD true
  let setup := createAsyncThunkWithCancelTokenSetup api method url payload freshToken
  match outcome with
  | RequestOutcome.okResponse d =>
      { sourceToken := setup.sourceToken
        abortActions := setup.abortActions
        requests := [setup.request]
        sentryCalls := []
        result := ThunkResult.fulfilled d }
  | RequestOutcome.errorResponse response =>
      { sourceToken := setup.sourceToken
        abortActions := setup.abortActions
        requests := [setup.request]
        sentryCalls := processResponseAndCaptureInfo response url
        result := ThunkResult.rejected (handleError response shouldShowToast) }
  | RequestOutcome.thrown error =>
      { sourceToken := setup.sourceToken
        abortActions := setup.abortActions
        requests := [setup.request]
        sentryCalls := [{ endpoint := some url, responseAttached := false, errorArg := error }]
        result := ThunkResult.rejected (handleCatchError error) }

/-- The redux-persist configuration object of app/redux/Store.ts lines 17 to
23. -/
structure PersistConfig where
  key : String
  version : Nat
  whitelist : List String
  blacklist : List String
deriving DecidableEq, Repr

/-- persistConfig (Store.ts lines 17 to 23). -/
def persistConfig : PersistConfig :=
  { key := "@withInstructionToolkitCachePersist"
    version := 1
    whitelist := ["auth"]
    blacklist := ["nav", "navigation"] }

/-- The slice keys combined into the root reducer (Store.ts lines 29 to
31). -/
def rootReducerSlices : List String := ["auth"]

/-- Modelled from the spec: the redux-persist library is external to the
repository; with a whitelist configured it stores exactly the root-state
slices whose key appears in the whitelist. -/
def persistedSlices (config : PersistConfig) (slices : List String) : List String :=
  slices.filter (fun s => config.whitelist.contains s)

/-- Modelled from the spec: the auth reducer is not under src; per spec
section 3 the persisted slice state is a flat key-value mapping. -/
abbrev AuthState := List (String × String)

/-- Modelled from the spec: serialization of a persisted slice, at the
granularity of the JSON value tree the external serializer round-trips
through; a flat string map becomes an object of string fields. -/
def serializeAuthState (state : AuthState) : JsonValue :=
  JsonValue.objValue (state.map (fun kv => (kv.1, JsonValue.strValue kv.2)))

/-- Decode the fields of a serialized flat string map. -/
def decodeAuthFields : List (String × JsonValue) → Option AuthState
  | [] => some []
  | (k, JsonValue.strValue v) :: rest =>
      (decodeAuthFields rest).map (fun tail => (k, v) :: tail)
  | _ :: _ => none

/-- Modelled from the spec: deserialization of a persisted slice, inverse
direction of serializeAuthState. -/
def deserializeAuthState : JsonValue → Option AuthState
  | JsonValue.objValue fields => decodeAuthFields fields
  | _ => none

/-- The app name and bundle identifier selected for an environment. -/
structure EnvironmentConfig where
  appName : String
  bundleIdentifier : String
deriving DecidableEq, Repr

/-- getEnvironmentConfig (buildconfig, withCustomSigning.js lines 319 to
338): a switch on the environment string whose production case is also the
default; the argument is NODE_ENV and may be absent.  A switch on string
literals is the written chain of equality tests. -/
def getEnvironmentConfig (environment : Option String) : EnvironmentConfig :=
  if environment = some "development" then
    { appName := "withinstruction-dev"
      bundleIdentifier := "com.simform.withinstruction.dev" }
  else if environment = some "preview" then
    { appName := "withinstruction-preview"
      bundleIdentifier := "com.simform.withinstruction.preview" }
  else
    { appName := "withinstruction"
      bundleIdentifier := "com.simform.withinstruction" }

/-- The fields of the expo config relevant to naming and identifiers. -/
structure AppJsonConfig where
  name : String
  slug : String
  iosBundleIdentifier : String
  androidPackage : String
deriving DecidableEq, Repr

/-- defineConfig (src/unnamed/part_005): resolve the environment config from
NODE_ENV and write the app name, the iOS bundleIdentifier and the Android
package into the native project configuration. -/
def defineConfig (nodeEnv : Option String) : AppJsonConfig :=
  let envConfig := getEnvironmentConfig nodeEnv
  { name := envConfig.appName
    slug := "withInstruction"
    iosBundleIdentifier := envConfig.bundleIdentifier
    androidPackage := envConfig.bundleIdentifier }

/-- The observable actions of the environment copy script: the cp commands
it performed and its exit status. -/
structure EnvScriptOutcome where
  copies : List (String × String)
  exitCode : Nat
deriving DecidableEq, Repr

/-- The environment copy script (src/unnamed/part_006): copy the matching
.env.* file over .env for prod, preview or dev, otherwise print an error and
exit with status 1 without copying anything.  The initial touch of a missing
.env file copies nothing and is not a cp action. -/
def setEnvScript (arg : String) : EnvScriptOutcome :=
  if arg = "prod" then { copies := [(".env.production", ".env")], exitCode := 0 }
  else if arg = "preview" then { copies := [(".env.preview", ".env")], exitCode := 0 }
  else if arg = "dev" then { copies := [(".env.development", ".env")], exitCode := 0 }
  else { copies := [], exitCode := 1 }

/-- Shell parameter expansion with a default, the form used by the iOS build
script: the default applies when the positional parameter is unset or
empty. -/
def shellDefault (arg : Option String) (deflt : String) : String :=
  match arg with
  | some s => if s = "" then deflt else s
  | none => deflt

/-- The xcodebuild archive invocation assembled by the iOS build script. -/
structure XcodebuildArchiveCall where
  workspace : String
  scheme : String
  archivePath : String
  configuration : String
  codeSignStyle : String
  developmentTeam : String
  archs : String
  exportOptionsRequested : Bool
deriving DecidableEq, Repr

/-- The iOS build script (embedded in withCustomSigning.js lines 113 to 318):
default the environment to Production, require a team id, blank the
environment suffix and disable export for Production, then substitute the
project name, scheme, archive path, team id and architecture into the
xcodebuild invocation.  The surrounding cache cleaning, Podfile backup and
pod install steps neither read nor change these parameters. -/
def iosBuildScript (envArg teamIdArg allowExportArg : Option String) :
    Except Nat XcodebuildArchiveCall :=
  let environment0 := shellDefault envArg "Production"
  let teamId := teamIdArg.getD ""
  let allowExport0 := shellDefault allowExportArg "false"
  if teamId = "" then Except.error 1
  else
    let environment := if environment0 = "Production" then "" else environment0
    let allowExport := if environment0 = "Production" then "false" else allowExport0
    let projectBaseName := "withinstruction"
    let projectName := projectBaseName ++ environment
    let schemeName := projectBaseName ++ environment
    Except.ok
      { workspace := projectName ++ ".xcworkspace"
        scheme := schemeName
        archivePath := "./ios/build/" ++ projectName ++ ".xcarchive"
        configuration := "Release"
        codeSignStyle := "Automatic"
        developmentTeam := teamId
        archs := "arm64"
        exportOptionsRequested := allowExport = "true" }

/-- The environment suffix the iOS build script appends to the base project
name, stated from the claim: the first argument defaulted to Production, with
Production mapped to the empty suffix. -/
def iosEnvironmentSuffix (envArg : Option String) : String :=
  if shellDefault envArg "Production" = "Production" then ""
  else shellDefault envArg "Production"

/-- The lookup table stated by the spec for claim C1: each apisauce problem
code is mapped to its localized Strings.APIError message, with unknown codes
mapped to somethingWentWrong. -/
def specProblemCodeMessage : Problem → String
  | Problem.CLIENT_ERROR => Strings.APIError.clientError
  | Problem.SERVER_ERROR => Strings.APIError.serverError
  | Problem.TIMEOUT_ERROR => Strings.APIError.timeoutError
  | Problem.CONNECTION_ERROR => Strings.APIError.connectionError
  | Problem.NETWORK_ERROR => Strings.APIError.networkError
  | Problem.CANCEL_ERROR => Strings.APIError.cancelError
  | _ => Strings.APIError.somethingWentWrong

/-- Claim C1 fails as stated: handleError is not a pure lookup over the
problem code, because a client-error response whose body carries a message
makes handleError return the server message instead of the localized
Strings.APIError.clientError entry for CLIENT_ERROR. -/
theorem handleError_not_pure_problem_lookup_cex :
    handleError
      ({ problem := Problem.CLIENT_ERROR
         data := some { id := none, email := none, phone := none, displayName := none,
                        photoURL := none, message := some "Email already exists" }
         originalErrorMessage := none
         status := some 409 } : ApiErrorResponse UserResponse) true
      ≠ getErrorResponse Strings.APIError.clientError := by
  decide

/-- Claim C1 amended: for every failed response whose body carries no
message, handleError returns the localized Strings.APIError message selected
purely by the apisauce problem code; a server-provided body message takes
precedence otherwise. -/
theorem handleError_is_problem_lookup_without_server_message
    {R : Type} [ResponseBound R] (response : ApiErrorResponse R)
    (shouldShowToast : Bool) (h : dataMessage response = none) :
    handleError response shouldShowToast
      = getErrorResponse (specProblemCodeMessage response.problem) := by
  obtain ⟨prob, data, oem, st⟩ := response
  cases prob <;>
    simp [handleError, handleClientError, specProblemCodeMessage, h]

/-- Witness for the amended claim C1 at a timeout response with no body. -/
theorem handleError_is_problem_lookup_without_server_message_witness :
    handleError
      ({ problem := Problem.TIMEOUT_ERROR, data := none,
         originalErrorMessage := none, status := none } : ApiErrorResponse UserResponse) true
      = getErrorResponse Strings.APIError.timeoutError :=
  handleError_is_problem_lookup_without_server_message _ true rfl

/-- Claim C2: every thunk built by createAsyncThunkWithCancelToken attaches
the token of the cancellation source it created to the request settings
before dispatching, and firing the abort signal runs exactly the one
registered cancellation of that token with reason USER_CANCELLED_REQUEST. -/
theorem createAsyncThunkWithCancelToken_cancel_hookup
    (api : ApisauceInstance) (method url : String)
    (payload : Option ThunkArg) (freshToken : Nat) :
    ((createAsyncThunkWithCancelTokenSetup api method url payload freshToken).request.settings.cancelToken
        = some (createAsyncThunkWithCancelTokenSetup api method url payload freshToken).sourceToken)
    ∧ fireAbortSignal (createAsyncThunkWithCancelTokenSetup api method url payload freshToken)
        = [{ token := (createAsyncThunkWithCancelTokenSetup api method url payload freshToken).sourceToken,
             reason := APIErrorType.USER_CANCELLED_REQUEST }] :=
  ⟨rfl, rfl⟩

/-- Claim C3: the store persists exactly the auth slice, and the flat
auth state round-trips unchanged through serialization and
deserialization. -/
theorem persist_whitelist_auth_only_roundtrip :
    persistedSlices persistConfig rootReducerSlices = ["auth"]
    ∧ persistConfig.whitelist = ["auth"]
    ∧ ∀ state : AuthState, deserializeAuthState (serializeAuthState state) = some state := by
  refine ⟨rfl, rfl, ?_⟩
  intro state
  induction state with
  | nil => rfl
  | cons kv rest ih =>
      obtain ⟨k, v⟩ := kv
      simp only [serializeAuthState, deserializeAuthState, List.map_cons] at ih ⊢
      rw [decodeAuthFields, ih]
      rfl

/-- Claim C4: every execution of a thunk built by
createAsyncThunkWithCancelToken dispatches exactly the one request assembled
in its setup, and a failed or errored response rejects immediately with an
ErrorResponse, with no re-issue, backoff or partial result. -/
theorem createAsyncThunkWithCancelToken_single_request
    {R : Type} [ResponseBound R] (api : ApisauceInstance) (method url : String)
    (payload : Option ThunkArg) (freshToken : Nat) :
    (∀ outcome : RequestOutcome R,
        (createAsyncThunkWithCancelTokenRun api method url payload freshToken outcome).requests
          = [(createAsyncThunkWithCancelTokenSetup api method url payload freshToken).request])
    ∧ (∀ response : ApiErrorResponse R,
        (createAsyncThunkWithCancelTokenRun api method url payload freshToken
            (RequestOutcome.errorResponse response)).result
          = ThunkResult.rejected
              (handleError response ((payload.getD defaultThunkArg).shouldShowToast.getD true)))
    ∧ (∀ error : JSError,
        (createAsyncThunkWithCancelTokenRun api method url payload freshToken
            (RequestOutcome.thrown error : RequestOutcome R)).result
          = ThunkResult.rejected (handleCatchError error)) := by
  refine ⟨fun outcome => ?_, fun response => rfl, fun error => rfl⟩
  cases outcome <;> rfl

/-- Claim C5 fails as stated: a non-ok response carrying the user
cancellation reason is rejected without any sentryCaptureAPIException
invocation. -/
theorem user_cancelled_response_not_forwarded_cex :
    (createAsyncThunkWithCancelTokenRun ApisauceInstance.authorizedAPI "get" "/user" none 0
        (RequestOutcome.errorResponse
          ({ problem := Problem.CANCEL_ERROR, data := none,
             originalErrorMessage := some APIErrorType.USER_CANCELLED_REQUEST,
             status := none } : ApiErrorResponse UserResponse))).sentryCalls = []
    ∧ (createAsyncThunkWithCancelTokenRun ApisauceInstance.authorizedAPI "get" "/user" none 0
        (RequestOutcome.errorResponse
          ({ problem := Problem.CANCEL_ERROR, data := none,
             originalErrorMessage := some APIErrorType.USER_CANCELLED_REQUEST,
             status := none } : ApiErrorResponse UserResponse))).result
        = ThunkResult.rejected (getErrorResponse Strings.APIError.cancelError) := by
  exact ⟨by decide, by decide⟩

/-- Claim C5 amended: every non-ok response whose original error message is
not the user cancellation reason, and every thrown error, is forwarded to
sentryCaptureAPIException and the thunk then rejects. -/
theorem sentry_forwarding_except_user_cancelled
    {R : Type} [ResponseBound R] (api : ApisauceInstance) (method url : String)
    (payload : Option ThunkArg) (freshToken : Nat) :
    (∀ response : ApiErrorResponse R,
        response.originalErrorMessage ≠ some APIErrorType.USER_CANCELLED_REQUEST →
        (createAsyncThunkWithCancelTokenRun api method url payload freshToken
            (RequestOutcome.errorResponse response)).sentryCalls
          = [{ endpoint := some url, responseAttached := true,
               errorArg := errorArgOfMessage (dataMessage response) }]
        ∧ (createAsyncThunkWithCancelTokenRun api method url payload freshToken
            (RequestOutcome.errorResponse response)).result
          = ThunkResult.rejected
              (handleError response ((payload.getD defaultThunkArg).shouldShowToast.getD true)))
    ∧ (∀ error : JSError,
        (createAsyncThunkWithCancelTokenRun api method url payload freshToken
            (RequestOutcome.thrown error : RequestOutcome R)).sentryCalls
          = [{ endpoint := some url, responseAttached := false, errorArg := error }]
        ∧ (createAsyncThunkWithCancelTokenRun api method url payload freshToken
            (RequestOutcome.thrown error : RequestOutcome R)).result
          = ThunkResult.rejected (handleCatchError error)) := by
  constructor
  · intro response h
    refine ⟨?_, rfl⟩
    show processResponseAndCaptureInfo response url = _
    rw [processResponseAndCaptureInfo, if_neg h]
  · intro error
    exact ⟨rfl, rfl⟩

/-- Witness for the amended claim C5 at a concrete server error. -/
theorem sentry_forwarding_except_user_cancelled_witness :
    (createAsyncThunkWithCancelTokenRun ApisauceInstance.authorizedAPI "get" "/profile" none 0
        (RequestOutcome.errorResponse
          ({ problem := Problem.SERVER_ERROR, data := none,
             originalErrorMessage := some "Request failed with status code 500",
             status := some 500 } : ApiErrorResponse UserResponse))).sentryCalls
      = [{ endpoint := some "/profile", responseAttached := true,
           errorArg := JSError.otherValue }] :=
  ((sentry_forwarding_except_user_cancelled ApisauceInstance.authorizedAPI "get" "/profile"
      none 0).1
    ({ problem := Problem.SERVER_ERROR, data := none,
       originalErrorMessage := some "Request failed with status code 500",
       status := some 500 } : ApiErrorResponse UserResponse) (by decide)).1

/-- Claim C6: getEnvironmentConfig returns the matching app name and bundle
identifier for each environment variant, and defineConfig writes the selected
values into the iOS bundleIdentifier and Android package of the native
project configuration. -/
theorem getEnvironmentConfig_variants_written_to_native :
    getEnvironmentConfig (some "development")
      = { appName := "withinstruction-dev",
          bundleIdentifier := "com.simform.withinstruction.dev" }
    ∧ getEnvironmentConfig (some "preview")
      = { appName := "withinstruction-preview",
          bundleIdentifier := "com.simform.withinstruction.preview" }
    ∧ getEnvironmentConfig (some "production")
      = { appName := "withinstruction",
          bundleIdentifier := "com.simform.withinstruction" }
    ∧ ∀ nodeEnv : Option String,
        (defineConfig nodeEnv).name = (getEnvironmentConfig nodeEnv).appName
        ∧ (defineConfig nodeEnv).iosBundleIdentifier
            = (getEnvironmentConfig nodeEnv).bundleIdentifier
        ∧ (defineConfig nodeEnv).androidPackage
            = (getEnvironmentConfig nodeEnv).bundleIdentifier :=
  ⟨by decide, by decide, by decide, fun nodeEnv => ⟨rfl, rfl, rfl⟩⟩

/-- Claim C7: the environment script only copies the selected .env.* file
into .env and exits with status 1 copying nothing on an unrecognized
argument, and the iOS build script only substitutes the environment, team id
and export parameters into the xcodebuild invocation. -/
theorem build_scripts_parameter_substitution :
    (∀ arg : String, arg ≠ "prod" → arg ≠ "preview" → arg ≠ "dev" →
        setEnvScript arg = { copies := [], exitCode := 1 })
    ∧ setEnvScript "prod" = { copies := [(".env.production", ".env")], exitCode := 0 }
    ∧ setEnvScript "preview" = { copies := [(".env.preview", ".env")], exitCode := 0 }
    ∧ setEnvScript "dev" = { copies := [(".env.development", ".env")], exitCode := 0 }
    ∧ (∀ (envArg teamIdArg allowExportArg : Option String) (call : XcodebuildArchiveCall),
        iosBuildScript envArg teamIdArg allowExportArg = Except.ok call →
        call.developmentTeam = teamIdArg.getD ""
        ∧ call.developmentTeam ≠ ""
        ∧ call.scheme = "withinstruction" ++ iosEnvironmentSuffix envArg
        ∧ call.workspace = call.scheme ++ ".xcworkspace"
        ∧ call.archivePath = "./ios/build/" ++ call.scheme ++ ".xcarchive"
        ∧ call.configuration = "Release") := by
  refine ⟨?_, by decide, by decide, by decide, ?_⟩
  · intro arg h1 h2 h3
    unfold setEnvScript
    rw [if_neg h1, if_neg h2, if_neg h3]
  · intro envArg teamIdArg allowExportArg call h
    by_cases ht : teamIdArg.getD "" = ""
    · simp [iosBuildScript, ht] at h
    · simp only [iosBuildScript, ht, if_neg, ite_false] at h
      injection h with h
      subst h
      exact ⟨rfl, ht, rfl, rfl, rfl, rfl⟩

/-- Witness for claim C7 at an unrecognized environment and at a concrete
development invocation of the iOS build script. -/
theorem build_scripts_parameter_substitution_witness :
    setEnvScript "stage" = { copies := [], exitCode := 1 }
    ∧ ({ workspace := "withinstructionDev.xcworkspace"
         scheme := "withinstructionDev"
         archivePath := "./ios/build/withinstructionDev.xcarchive"
         configuration := "Release"
         codeSignStyle := "Automatic"
         developmentTeam := "ABCDE12345"
         archs := "arm64"
         exportOptionsRequested := false } : XcodebuildArchiveCall).developmentTeam
        = "ABCDE12345" :=
  ⟨build_scripts_parameter_substitution.1 "stage" (by decide) (by decide) (by decide),
   (build_scripts_parameter_substitution.2.2.2.2 (some "Dev") (some "ABCDE12345") none
      { workspace := "withinstructionDev.xcworkspace"
        scheme := "withinstructionDev"
        archivePath := "./ios/build/withinstructionDev.xcarchive"
        configuration := "Release"
        codeSignStyle := "Automatic"
        developmentTeam := "ABCDE12345"
        archs := "arm64"
        exportOptionsRequested := false } rfl).1⟩

/-- Claim C8: a server-provided response body message takes precedence over
the localized per-problem-code default in handleError, for every problem code
including the default branch. -/
theorem handleError_server_message_precedence
    {R : Type} [ResponseBound R] (response : ApiErrorResponse R)
    (shouldShowToast : Bool) (m : String) (h : dataMessage response = some m) :
    handleError response shouldShowToast = getErrorResponse m := by
  obtain ⟨prob, data, oem, st⟩ := response
  cases prob <;> simp [handleError, handleClientError, h]

/-- Witness for claim C8 at a concrete server error carrying a body
message. -/
theorem handleError_server_message_precedence_witness :
    handleError
      ({ problem := Problem.SERVER_ERROR
         data := some { id := none, email := none, phone := none, displayName := none,
                        photoURL := none, message := some "maintenance window" }
         originalErrorMessage := none
         status := some 503 } : ApiErrorResponse UserResponse) true
      = getErrorResponse "maintenance window" :=
  handleError_server_message_precedence _ true "maintenance window" rfl

/-- Claim C9: a user-cancelled request is never forwarded to
sentryCaptureAPIException by processResponseAndCaptureInfo, and every Sentry
capture function is a no-op in development mode. -/
theorem user_cancelled_never_reported_and_dev_noop :
    (∀ (R : Type) (inst : ResponseBound R) (response : ApiErrorResponse R) (url : String),
        response.originalErrorMessage = some APIErrorType.USER_CANCELLED_REQUEST →
        @processResponseAndCaptureInfo R inst response url = [])
    ∧ (∀ (endpoint : Option String) (response : Option JsonValue) (error : JSError),
        sentryCaptureAPIException true endpoint response error = [])
    ∧ (∀ (eventName : String) (request error : Option String),
        sentryCaptureMessage true eventName request error = [])
    ∧ (∀ errorName errorMessage : String,
        sentryCaptureException true errorName errorMessage = []) := by
  refine ⟨?_, fun endpoint response error => rfl,
          fun eventName request error => rfl, fun en em => rfl⟩
  intro R inst response url h
  rw [processResponseAndCaptureInfo, if_pos h]

/-- Witness for claim C9 at a concrete cancelled login request and the
development-mode capture helpers. -/
theorem user_cancelled_never_reported_and_dev_noop_witness :
    @processResponseAndCaptureInfo UserResponse instResponseBoundUserResponse
      { problem := Problem.CANCEL_ERROR, data := none,
        originalErrorMessage := some APIErrorType.USER_CANCELLED_REQUEST,
        status := none } "/login" = []
    ∧ sentryCaptureAPIException true (some "/login") none JSError.otherValue = [] :=
  ⟨user_cancelled_never_reported_and_dev_noop.1 UserResponse instResponseBoundUserResponse
      { problem := Problem.CANCEL_ERROR, data := none,
        originalErrorMessage := some APIErrorType.USER_CANCELLED_REQUEST,
        status := none } "/login" rfl,
   user_cancelled_never_reported_and_dev_noop.2.1 (some "/login") none JSError.otherValue⟩

/-- Claim C10: for every environment string other than development and
preview, including the absent and the empty value, getEnvironmentConfig
silently returns the production app name and bundle identifier. -/
theorem getEnvironmentConfig_defaults_to_production (environment : Option String)
    (hdev : environment ≠ some "development") (hpre : environment ≠ some "preview") :
    getEnvironmentConfig environment
      = { appName := "withinstruction",
          bundleIdentifier := "com.simform.withinstruction" } := by
  unfold getEnvironmentConfig
  rw [if_neg hdev, if_neg hpre]

/-- Witness for claim C10 at the absent, the empty and a misspelled
environment value. -/
theorem getEnvironmentConfig_defaults_to_production_witness :
    getEnvironmentConfig none
      = { appName := "withinstruction", bundleIdentifier := "com.simform.withinstruction" }
    ∧ getEnvironmentConfig (some "")
      = { appName := "withinstruction", bundleIdentifier := "com.simform.withinstruction" }
    ∧ getEnvironmentConfig (some "developmnet")
      = { appName := "withinstruction", bundleIdentifier := "com.simform.withinstruction" } :=
  ⟨getEnvironmentConfig_defaults_to_production none (by decide) (by decide),
   getEnvironmentConfig_defaults_to_production (some "") (by decide) (by decide),
   getEnvironmentConfig_defaults_to_production (some "developmnet") (by decide) (by decide)⟩

end WithInstruction
